import Mathlib

/-!
Shallow embedding of src/BAS_Controller.py (class BuildingAutomationSystem).

Modelling conventions, fixed throughout this file:

* Python floats are modelled as rationals (ℚ).  Python round(x, n) is
  modelled as rounding to the nearest multiple of 10 ^ (-n), ties upward;
  none of the properties settled here depends on the tie direction.
* The tkinter StringVar / BooleanVar / DoubleVar instance attributes become
  plain fields of a state record.  lights_state and door_relay_state keep the
  "On" / "Off" string encoding used by the source.
* Calls to time.time() and random.uniform(...) become explicit parameters of
  the functions that perform them in the source.
* A serial conversation (the body of a `with serial.Serial(...)` block) is
  modelled by an outcome parameter: either the whole conversation succeeds,
  carrying the reply lines that the source logs, or it raises an exception
  after some prefix of the replies, which the source catches; the exception
  text str(e) is carried by the outcome.
* log_event appends the message to the event list `log`; the timestamp
  prefix that the source formats with datetime.now() is elided, and the
  numeric values interpolated into a few messages are elided where noted.
* messagebox popups are presentation output, not state; where a popup is the
  only error signal (set_temperature_range) the function returns a result
  value that records it.
* The monitor loop bodies (one iteration of the while True loop) are
  modelled as tick functions; besides the successor state they return the
  list of actuation commands the tick issued (which turn_* method it called).
-/

/-- Rounding to the nearest multiple of 1/10, modelling Python round(x, 1). -/
def round1 (x : ℚ) : ℚ := (⌊x * 10 + 1 / 2⌋ : ℚ) / 10

/-- Rounding to the nearest multiple of 1/100, modelling Python round(x, 2). -/
def round2 (x : ℚ) : ℚ := (⌊x * 100 + 1 / 2⌋ : ℚ) / 100

/-- The mutable state of a BuildingAutomationSystem instance: every instance
attribute of the source class that the control logic reads or writes
(the tkinter widget handles themselves are presentation and are omitted). -/
structure BASState where
  lights_state : String
  door_relay_state : String
  current_temp : ℚ
  temp_min : ℚ
  temp_max : ℚ
  current_humidity : ℚ
  door_open_time : ℚ
  lights_on_time : String
  lights_off_time : String
  auto_mode : Bool
  scheduled_mode : Bool
  energy_usage : ℚ
  last_energy_update : ℚ
  current_mode : String
  is_connected : Bool
  log : List String
  deriving DecidableEq

/-- The state right after __init__ has set the instance attributes (with the
initial time.time() taken as 0, and before try_connect_devices runs, so
is_connected = False as assigned on line 62 of the source). -/
def initialState : BASState where
  lights_state := "Off"
  door_relay_state := "Off"
  current_temp := 22
  temp_min := 20
  temp_max := 25
  current_humidity := 45
  door_open_time := 0
  lights_on_time := "07:00"
  lights_off_time := "19:00"
  auto_mode := false
  scheduled_mode := false
  energy_usage := 0
  last_energy_update := 0
  current_mode := "Manual"
  is_connected := false
  log := []

/-- Outcome of the serial conversation inside turn_on_lights or
turn_off_lights: either all four frames are written and answered (the reply
lines in order), or a TransportError is raised after some prefix of replies,
with message text msg. -/
inductive LightCall where
  | ok (responses : List String)
  | err (responses : List String) (msg : String)
  deriving DecidableEq

/-- Outcome of the serial conversation inside turn_on_door_relay or
turn_off_door_relay: success, or a TransportError with message text msg. -/
inductive DoorCall where
  | ok
  | err (msg : String)
  deriving DecidableEq

/-- An actuation command issued by a monitor tick: which turn_* method the
tick body invoked. -/
inductive Act where
  | lightsOn
  | lightsOff
  | doorOpenRelay
  | doorCloseRelay
  deriving DecidableEq

/-- log_event (source lines 305-310): appends the message to the log display;
the timestamp prefix is elided. -/
def log_event (message : String) (s : BASState) : BASState :=
  { s with log := s.log ++ [message] }

/-- The response-logging loop shared by turn_on_lights and turn_off_lights:
each reply line r is logged as "Light command response: r". -/
def logLightResponses (responses : List String) (s : BASState) : BASState :=
  responses.foldl (fun st r => log_event ("Light command response: " ++ r) st) s

/-- turn_on_lights (source lines 440-468).  Not connected: log and return.
Otherwise the serial conversation runs; on success the replies are logged,
lights_state is set to "On" and "Lights turned ON" is logged; on a raised
exception the replies received so far are logged, the error is logged, and
lights_state is still set to "On" (the optimistic update in the except
block). -/
def turn_on_lights (tr : LightCall) (s : BASState) : BASState :=
  if s.is_connected = false then
    log_event "System not connected. Unable to turn on lights." s
  else
    match tr with
    | LightCall.ok responses =>
        let s1 := logLightResponses responses s
        let s2 := { s1 with lights_state := "On" }
        log_event "Lights turned ON" s2
    | LightCall.err responses msg =>
        let s1 := logLightResponses responses s
        let s2 := log_event ("Error turning on lights: " ++ msg) s1
        { s2 with lights_state := "On" }

/-- turn_off_lights (source lines 470-498), symmetric to turn_on_lights. -/
def turn_off_lights (tr : LightCall) (s : BASState) : BASState :=
  if s.is_connected = false then
    log_event "System not connected. Unable to turn off lights." s
  else
    match tr with
    | LightCall.ok responses =>
        let s1 := logLightResponses responses s
        let s2 := { s1 with lights_state := "Off" }
        log_event "Lights turned OFF" s2
    | LightCall.err responses msg =>
        let s1 := logLightResponses responses s
        let s2 := log_event ("Error turning off lights: " ++ msg) s1
        { s2 with lights_state := "Off" }

/-- turn_on_door_relay (source lines 500-521).  now is the time.time() value
read on line 516.  On success: "Door relay command sent" is logged,
door_relay_state becomes "On", door_open_time is set to now, "Door opened"
is logged.  On a raised exception: the error is logged and door_relay_state
is still set to "On" — but door_open_time is NOT updated (the except block
on lines 518-521 does not touch it). -/
def turn_on_door_relay (now : ℚ) (tr : DoorCall) (s : BASState) : BASState :=
  if s.is_connected = false then
    log_event "System not connected. Unable to open door." s
  else
    match tr with
    | DoorCall.ok =>
        let s1 := log_event "Door relay command sent" s
        let s2 := { s1 with door_relay_state := "On", door_open_time := now }
        log_event "Door opened" s2
    | DoorCall.err msg =>
        let s1 := log_event ("Error opening door: " ++ msg) s
        { s1 with door_relay_state := "On" }

/-- turn_off_door_relay (source lines 523-543).  No path of this function
touches door_open_time. -/
def turn_off_door_relay (tr : DoorCall) (s : BASState) : BASState :=
  if s.is_connected = false then
    log_event "System not connected. Unable to close door." s
  else
    match tr with
    | DoorCall.ok =>
        let s1 := log_event "Door relay command sent" s
        let s2 := { s1 with door_relay_state := "Off" }
        log_event "Door closed" s2
    | DoorCall.err msg =>
        let s1 := log_event ("Error closing door: " ++ msg) s
        { s1 with door_relay_state := "Off" }

/-- change_mode (source lines 256-278).  The mode string is stored first;
then the flag updates of the matched branch run (the "Energy Saving" branch
also forces the temperature band and calls turn_off_lights); finally the
mode change is logged. -/
def change_mode (mode : String) (tr : LightCall) (s : BASState) : BASState :=
  let s0 := { s with current_mode := mode }
  let s1 :=
    if mode = "Auto" then
      { s0 with auto_mode := true, scheduled_mode := false }
    else if mode = "Schedule" then
      { s0 with auto_mode := false, scheduled_mode := true }
    else if mode = "Energy Saving" then
      let s2 := { s0 with auto_mode := true, scheduled_mode := true,
                          temp_min := 18, temp_max := 23 }
      turn_off_lights tr s2
    else
      { s0 with auto_mode := false, scheduled_mode := false }
  log_event ("Mode changed to " ++ mode) s1

/-- One entry of the self.macros dictionary (source lines 54-60). -/
structure MacroEntry where
  lights : String
  temperature : ℚ
  door : String
  deriving DecidableEq

/-- The self.macros dictionary (source lines 54-60) as a lookup function. -/
def macros (name : String) : Option MacroEntry :=
  if name = "Morning" then some { lights := "On", temperature := 22, door := "Off" }
  else if name = "Day" then some { lights := "On", temperature := 23, door := "Off" }
  else if name = "Evening" then some { lights := "On", temperature := 21, door := "Off" }
  else if name = "Night" then some { lights := "Off", temperature := 19, door := "Off" }
  else if name = "Away" then some { lights := "Off", temperature := 18, door := "Off" }
  else none

/-- apply_macro (source lines 280-303).  If the name is registered: the
lights command runs, current_temp is set directly to the target, the door
command runs, and the application is logged.  Unknown names only raise a
messagebox (no state change, no log entry). -/
def applyMacro (name : String) (ltr : LightCall) (dtr : DoorCall) (now : ℚ)
    (s : BASState) : BASState :=
  match macros name with
  | some m =>
      let s1 := if m.lights = "On" then turn_on_lights ltr s else turn_off_lights ltr s
      let s2 := { s1 with current_temp := m.temperature }
      let s3 := if m.door = "On" then turn_on_door_relay now dtr s2
                else turn_off_door_relay dtr s2
      log_event ("Applied macro: " ++ name) s3
  | none => s

/-- Result of set_temperature_range: success, or the rejection reported by
the messagebox on line 248 of the source (the InvalidRangeError of the
spec). -/
inductive RangeResult where
  | ok
  | invalidRange
  deriving DecidableEq

/-- set_temperature_range (source lines 241-254).  It reads the min and max
from the temp_min / temp_max variables; if min_temp >= max_temp it reports
the error and returns without modifying anything; otherwise it logs the new
range (numeric interpolation elided).  No branch of the function writes
temp_min or temp_max. -/
def set_temperature_range (s : BASState) : BASState × RangeResult :=
  let min_temp := s.temp_min
  let max_temp := s.temp_max
  if min_temp ≥ max_temp then (s, RangeResult.invalidRange)
  else (log_event "Temperature range set" s, RangeResult.ok)

/-- One iteration of the monitor_temperature loop body (source lines
331-360).  fluctuation and humidity_change are the two random.uniform
draws.  The comparison on lines 348 and 354 uses the unrounded new_temp;
the stored current_temp is round(new_temp, 1).  The two log messages elide
the interpolated temperature value. -/
def monitor_temperature_tick (fluctuation humidity_change : ℚ) (tr : LightCall)
    (s : BASState) : BASState × List Act :=
  let current := s.current_temp
  let new_temp := current + fluctuation
  let s1 := { s with current_temp := round1 new_temp }
  let current_humidity := s1.current_humidity
  let new_humidity := current_humidity + humidity_change
  let s2 := { s1 with current_humidity := round1 (max 30 (min 70 new_humidity)) }
  if new_temp < s2.temp_min ∧ s2.auto_mode then
    let s3 := log_event "Temperature below minimum. Activating heating." s2
    (turn_on_lights tr s3, [Act.lightsOn])
  else if new_temp > s2.temp_max ∧ s2.auto_mode then
    let s3 := log_event "Temperature above maximum. Deactivating heating." s2
    (turn_off_lights tr s3, [Act.lightsOff])
  else (s2, [])

/-- The temperature-control section of one auto_mode_monitor iteration
(source lines 393-401): unlike monitor_temperature it also checks the
current lights_state before acting. -/
def auto_temp_part (tr : LightCall) (s : BASState) : BASState × List Act :=
  if s.current_temp < s.temp_min then
    if s.lights_state = "Off" then (turn_on_lights tr s, [Act.lightsOn]) else (s, [])
  else if s.current_temp > s.temp_max then
    if s.lights_state = "On" then (turn_off_lights tr s, [Act.lightsOff]) else (s, [])
  else (s, [])

/-- One iteration of the auto_mode_monitor loop body (source lines 389-409),
the DoorSafetyMonitor of the spec.  The whole body is guarded by
`if self.auto_mode.get():` (line 391); the door check on lines 404-407 reads
the state left by the temperature section and fires when the relay is "On"
and now - door_open_time > 10. -/
def auto_mode_monitor_tick (now : ℚ) (ltr : LightCall) (dtr : DoorCall)
    (s : BASState) : BASState × List Act :=
  if s.auto_mode then
    if (auto_temp_part ltr s).1.door_relay_state = "On" ∧
        now - (auto_temp_part ltr s).1.door_open_time > 10 then
      (log_event "Auto-closed door after timeout"
         (turn_off_door_relay dtr (auto_temp_part ltr s).1),
       (auto_temp_part ltr s).2 ++ [Act.doorCloseRelay])
    else auto_temp_part ltr s
  else (s, [])

/-- One iteration of the monitor_energy_usage loop body (source lines
417-435).  now is the time.time() value; the source reads it twice (lines
424 and 433), here taken as the same instant. -/
def monitor_energy_usage_tick (now : ℚ) (s : BASState) : BASState :=
  let lights_factor : ℚ := if s.lights_state = "On" then 1 else 2 / 10
  let door_factor : ℚ := if s.door_relay_state = "On" then 5 / 10 else 0
  let time_diff := (now - s.last_energy_update) / 3600
  let energy_increment := (lights_factor + door_factor) * time_diff * (1 / 10)
  let current_usage := s.energy_usage
  { s with energy_usage := round2 (current_usage + energy_increment),
           last_energy_update := now }

/-- A sequence of EnergyAccountant ticks: before each tick the lights and
door flags are set to arbitrary given values (the other loops and commands
may have changed them in between), then the tick runs at the given time. -/
def runEnergyTicks : List (ℚ × String × String) → BASState → BASState
  | [], s => s
  | t :: rest, s =>
      runEnergyTicks rest
        (monitor_energy_usage_tick t.1
          { s with lights_state := t.2.1, door_relay_state := t.2.2 })

/-- The tick times are non-decreasing starting from the given last-sample
time: each tick sees a non-negative elapsed interval. -/
def chronoFrom : ℚ → List (ℚ × String × String) → Bool
  | _, [] => true
  | t0, t :: rest => decide (t0 ≤ t.1) && chronoFrom t.1 rest

/-- x is a whole number of hundredths: the grid that round2 produces and on
which energy_usage stays (it starts at 0). -/
def onCentGrid (x : ℚ) : Prop := ∃ n : ℤ, x = (n : ℚ) / 100

/-- Invariant linking the connection flag to the actuation flags: while the
system is not connected, every turn_* method returns on its early-return
path, so lights_state and door_relay_state keep their initial "Off" values.
is_connected itself is written only by try_connect_devices, once, before
any command runs. -/
def connInv (s : BASState) : Prop :=
  s.is_connected = false → s.lights_state = "Off" ∧ s.door_relay_state = "Off"

/-- A connected state in Manual mode whose door has been open since time 0:
a counterexample state for the mode-independence part of the door-timeout
claim. -/
def c1s : BASState :=
  { initialState with current_mode := "Manual", auto_mode := false,
                      door_relay_state := "On", door_open_time := 0,
                      is_connected := true }

/-- A connected state with the auto-regulation flag set and the door open
since time 0, with the temperature inside the band. -/
def w1s : BASState :=
  { initialState with current_mode := "Auto", auto_mode := true,
                      door_relay_state := "On", door_open_time := 0,
                      is_connected := true }

/-- A connected state (otherwise the initial one). -/
def w2s : BASState := { initialState with is_connected := true }

/-- A connected state whose lights are on. -/
def w3s : BASState :=
  { initialState with is_connected := true, lights_state := "On" }

/-- A state whose stored temperature range is inverted (min above max). -/
def w4s : BASState := { initialState with temp_min := 25, temp_max := 20 }

/-- A connected state with the lights on and the door open. -/
def w5s : BASState :=
  { initialState with is_connected := true, lights_state := "On",
                      door_relay_state := "On" }

/-- A connected auto-mode state whose temperature is below the band. -/
def w6s : BASState :=
  { initialState with is_connected := true, auto_mode := true,
                      current_temp := 15 }

/-- A connected state whose door was opened at time 5. -/
def c8s : BASState :=
  { initialState with door_relay_state := "On", door_open_time := 5,
                      is_connected := true }

/-- A connected state (otherwise the initial one), for the door-timestamp
claim. -/
def w8s : BASState := { initialState with is_connected := true }

/-- A connected state already in Energy Saving mode (flags and band as the
mode sets them) whose lights were later turned back on manually. -/
def c9s : BASState :=
  { initialState with current_mode := "Energy Saving", auto_mode := true,
                      scheduled_mode := true, temp_min := 18, temp_max := 23,
                      lights_state := "On", is_connected := true }

/-- Unfolding the response-logging fold: it only extends the log. -/
theorem logLightResponses_eq (rs : List String) (s : BASState) :
    logLightResponses rs s =
      { s with log := s.log ++ rs.map (fun r => "Light command response: " ++ r) } := by
  induction rs generalizing s with
  | nil => simp [logLightResponses]
  | cons r rest ih =>
      show logLightResponses rest (log_event ("Light command response: " ++ r) s) = _
      rw [ih]
      simp [log_event]

/-- turn_on_lights never changes the door-relay flag. -/
theorem turn_on_lights_door_state (tr : LightCall) (s : BASState) :
    (turn_on_lights tr s).door_relay_state = s.door_relay_state := by
  rcases tr with rs | ⟨rs, m⟩ <;> by_cases h : s.is_connected = false <;>
    simp [turn_on_lights, h, logLightResponses_eq, log_event]

/-- turn_on_lights never changes the door-open timestamp. -/
theorem turn_on_lights_door_time (tr : LightCall) (s : BASState) :
    (turn_on_lights tr s).door_open_time = s.door_open_time := by
  rcases tr with rs | ⟨rs, m⟩ <;> by_cases h : s.is_connected = false <;>
    simp [turn_on_lights, h, logLightResponses_eq, log_event]

/-- turn_off_lights never changes the door-relay flag. -/
theorem turn_off_lights_door_state (tr : LightCall) (s : BASState) :
    (turn_off_lights tr s).door_relay_state = s.door_relay_state := by
  rcases tr with rs | ⟨rs, m⟩ <;> by_cases h : s.is_connected = false <;>
    simp [turn_off_lights, h, logLightResponses_eq, log_event]

/-- turn_off_lights never changes the door-open timestamp. -/
theorem turn_off_lights_door_time (tr : LightCall) (s : BASState) :
    (turn_off_lights tr s).door_open_time = s.door_open_time := by
  rcases tr with rs | ⟨rs, m⟩ <;> by_cases h : s.is_connected = false <;>
    simp [turn_off_lights, h, logLightResponses_eq, log_event]

/-- The temperature section of the auto monitor never changes the door-relay
flag. -/
theorem auto_temp_part_door_state (tr : LightCall) (s : BASState) :
    (auto_temp_part tr s).1.door_relay_state = s.door_relay_state := by
  unfold auto_temp_part
  split_ifs <;> simp [turn_on_lights_door_state, turn_off_lights_door_state]

/-- The temperature section of the auto monitor never changes the door-open
timestamp. -/
theorem auto_temp_part_door_time (tr : LightCall) (s : BASState) :
    (auto_temp_part tr s).1.door_open_time = s.door_open_time := by
  unfold auto_temp_part
  split_ifs <;> simp [turn_on_lights_door_time, turn_off_lights_door_time]

/-- C4: for every state whose stored minimum is at or above its stored
maximum, set_temperature_range rejects the change with the invalid-range
error and returns the state unchanged — in particular temp_min and temp_max
keep their prior values. -/
theorem C4_invalid_range_rejected (s : BASState) (h : s.temp_min ≥ s.temp_max) :
    set_temperature_range s = (s, RangeResult.invalidRange) := by
  unfold set_temperature_range
  rw [if_pos h]

/-- Witness for C4 at a concrete inverted range. -/
theorem C4_invalid_range_rejected_witness :
    set_temperature_range w4s = (w4s, RangeResult.invalidRange) :=
  C4_invalid_range_rejected w4s (by decide)

/-- C10: when the system is not connected, each of the four actuation
commands is exactly the early-return path: it appends one log entry and
changes nothing else, so lights_state, door_relay_state and door_open_time
are untouched. -/
theorem C10_not_connected_only_logs (s : BASState) (ltr : LightCall)
    (dtr : DoorCall) (now : ℚ) (h : s.is_connected = false) :
    turn_on_lights ltr s =
      log_event "System not connected. Unable to turn on lights." s ∧
    turn_off_lights ltr s =
      log_event "System not connected. Unable to turn off lights." s ∧
    turn_on_door_relay now dtr s =
      log_event "System not connected. Unable to open door." s ∧
    turn_off_door_relay dtr s =
      log_event "System not connected. Unable to close door." s := by
  refine ⟨?_, ?_, ?_, ?_⟩ <;>
    simp [turn_on_lights, turn_off_lights, turn_on_door_relay,
          turn_off_door_relay, h]

/-- Witness for C10 at the initial (not yet connected) state. -/
theorem C10_not_connected_only_logs_witness :
    turn_on_lights (LightCall.ok []) initialState =
      log_event "System not connected. Unable to turn on lights." initialState :=
  (C10_not_connected_only_logs initialState (LightCall.ok []) DoorCall.ok 0
    (by decide)).1

/-- C2: when the serial call raises a TransportError (the system being
connected, so the call is reached), each of the four actuation commands
still sets its logical flag to the intended value and appends an error entry
to the event log. -/
theorem C2_transport_error_optimistic_update (s : BASState)
    (responses : List String) (msg : String) (now : ℚ)
    (h : s.is_connected = true) :
    (turn_on_lights (LightCall.err responses msg) s).lights_state = "On" ∧
    ("Error turning on lights: " ++ msg) ∈
      (turn_on_lights (LightCall.err responses msg) s).log ∧
    (turn_off_lights (LightCall.err responses msg) s).lights_state = "Off" ∧
    ("Error turning off lights: " ++ msg) ∈
      (turn_off_lights (LightCall.err responses msg) s).log ∧
    (turn_on_door_relay now (DoorCall.err msg) s).door_relay_state = "On" ∧
    ("Error opening door: " ++ msg) ∈
      (turn_on_door_relay now (DoorCall.err msg) s).log ∧
    (turn_off_door_relay (DoorCall.err msg) s).door_relay_state = "Off" ∧
    ("Error closing door: " ++ msg) ∈
      (turn_off_door_relay (DoorCall.err msg) s).log := by
  simp [turn_on_lights, turn_off_lights, turn_on_door_relay,
        turn_off_door_relay, h, logLightResponses_eq, log_event]

/-- Witness for C2: a TransportError during manualLightsOn at a concrete
connected state still results in the lights flag being on. -/
theorem C2_transport_error_optimistic_update_witness :
    (turn_on_lights (LightCall.err [] "boom") w2s).lights_state = "On" :=
  (C2_transport_error_optimistic_update w2s [] "boom" 0 (by decide)).1

/-- C8 (amended): door_open_time is set to now on every successful open
command (even when the door is already open), is left unchanged when the
open call raises a TransportError and on the not-connected path, and is
never modified by the close command. -/
theorem C8_door_open_time_behavior (s : BASState) (now : ℚ) (msg : String)
    (dtr : DoorCall) :
    (s.is_connected = true →
      (turn_on_door_relay now DoorCall.ok s).door_open_time = now) ∧
    (s.is_connected = true →
      (turn_on_door_relay now (DoorCall.err msg) s).door_open_time =
        s.door_open_time) ∧
    (s.is_connected = false →
      (turn_on_door_relay now dtr s).door_open_time = s.door_open_time) ∧
    (turn_off_door_relay dtr s).door_open_time = s.door_open_time := by
  refine ⟨fun h => ?_, fun h => ?_, fun h => ?_, ?_⟩
  · simp [turn_on_door_relay, h, log_event]
  · simp [turn_on_door_relay, h, log_event]
  · simp [turn_on_door_relay, h, log_event]
  · rcases dtr with _ | m <;> by_cases h2 : s.is_connected = false <;>
      simp [turn_off_door_relay, h2, log_event]

/-- C8 counterexample: closing the door does not clear door_open_time.
From a connected state whose door was opened at time 5, a successful close
leaves the relay off but door_open_time still holds 5 — the source never
resets it, contradicting the claimed clearing on close. -/
theorem C8_close_does_not_clear :
    c8s.door_relay_state = "On" ∧
    (turn_off_door_relay DoorCall.ok c8s).door_relay_state = "Off" ∧
    (turn_off_door_relay DoorCall.ok c8s).door_open_time = 5 := by decide

/-- Witness for C8 at a concrete connected state and open time 42. -/
theorem C8_door_open_time_behavior_witness :
    (turn_on_door_relay 42 DoorCall.ok w8s).door_open_time = 42 :=
  (C8_door_open_time_behavior w8s 42 "boom" DoorCall.ok).1 (by decide)

/-- log_event preserves the connection invariant. -/
theorem connInv_log_event (m : String) (s : BASState) (h : connInv s) :
    connInv (log_event m s) := by
  intro hc
  exact h hc

/-- turn_on_lights preserves the connection invariant: on a connected state
the invariant is vacuous, and on a disconnected state the function only
logs. -/
theorem connInv_turn_on_lights (tr : LightCall) (s : BASState) (h : connInv s) :
    connInv (turn_on_lights tr s) := by
  intro hc
  by_cases hcon : s.is_connected = false
  · have hs := h hcon
    simp [turn_on_lights, hcon, log_event]
    exact hs
  · exfalso
    rcases tr with rs | ⟨rs, m⟩ <;>
      simp [turn_on_lights, hcon, logLightResponses_eq, log_event] at hc

/-- turn_off_lights preserves the connection invariant. -/
theorem connInv_turn_off_lights (tr : LightCall) (s : BASState) (h : connInv s) :
    connInv (turn_off_lights tr s) := by
  intro hc
  by_cases hcon : s.is_connected = false
  · have hs := h hcon
    simp [turn_off_lights, hcon, log_event]
    exact hs
  · exfalso
    rcases tr with rs | ⟨rs, m⟩ <;>
      simp [turn_off_lights, hcon, logLightResponses_eq, log_event] at hc

/-- turn_on_door_relay preserves the connection invariant. -/
theorem connInv_turn_on_door_relay (now : ℚ) (tr : DoorCall) (s : BASState)
    (h : connInv s) : connInv (turn_on_door_relay now tr s) := by
  intro hc
  by_cases hcon : s.is_connected = false
  · have hs := h hcon
    simp [turn_on_door_relay, hcon, log_event]
    exact hs
  · exfalso
    rcases tr with _ | m <;>
      simp [turn_on_door_relay, hcon, log_event] at hc

/-- turn_off_door_relay preserves the connection invariant. -/
theorem connInv_turn_off_door_relay (tr : DoorCall) (s : BASState)
    (h : connInv s) : connInv (turn_off_door_relay tr s) := by
  intro hc
  by_cases hcon : s.is_connected = false
  · have hs := h hcon
    simp [turn_off_door_relay, hcon, log_event]
    exact hs
  · exfalso
    rcases tr with _ | m <;>
      simp [turn_off_door_relay, hcon, log_event] at hc

/-- change_mode preserves the connection invariant (its record updates do
not touch the connection or actuation flags, and its only actuation goes
through turn_off_lights). -/
theorem connInv_change_mode (m : String) (tr : LightCall) (s : BASState)
    (h : connInv s) : connInv (change_mode m tr s) := by
  unfold change_mode
  split_ifs with h1 h2 h3
  · exact connInv_log_event _ _ h
  · exact connInv_log_event _ _ h
  · exact connInv_log_event _ _ (connInv_turn_off_lights tr _ h)
  · exact connInv_log_event _ _ h

/-- applyMacro preserves the connection invariant. -/
theorem connInv_applyMacro (n : String) (ltr : LightCall) (dtr : DoorCall)
    (now : ℚ) (s : BASState) (h : connInv s) :
    connInv (applyMacro n ltr dtr now s) := by
  unfold applyMacro
  cases hm : macros n with
  | none => exact h
  | some entry =>
      dsimp only
      by_cases h1 : entry.lights = "On" <;> by_cases h2 : entry.door = "On"
      · rw [if_pos h1, if_pos h2]
        exact connInv_log_event _ _
          (connInv_turn_on_door_relay now dtr _ (connInv_turn_on_lights ltr s h))
      · rw [if_pos h1, if_neg h2]
        exact connInv_log_event _ _
          (connInv_turn_off_door_relay dtr _ (connInv_turn_on_lights ltr s h))
      · rw [if_neg h1, if_pos h2]
        exact connInv_log_event _ _
          (connInv_turn_on_door_relay now dtr _ (connInv_turn_off_lights ltr s h))
      · rw [if_neg h1, if_neg h2]
        exact connInv_log_event _ _
          (connInv_turn_off_door_relay dtr _ (connInv_turn_off_lights ltr s h))

/-- The initial state satisfies the connection invariant. -/
theorem connInv_initialState : connInv initialState := fun _ => ⟨rfl, rfl⟩

/-- C3: setMode(EnergySaving) forces tempMin to 18 and tempMax to 23, sets
the mode string with both the auto-regulation and scheduling flags enabled,
and leaves the lights off: on a connected state turn_off_lights clears the
flag whether the transport call succeeds or raises, and on a disconnected
state the lights were already off by the connection invariant (the
invariant every reachable state of the program satisfies, connInv). -/
theorem C3_energy_saving_mode (s : BASState) (tr : LightCall)
    (hinv : connInv s) :
    (change_mode "Energy Saving" tr s).temp_min = 18 ∧
    (change_mode "Energy Saving" tr s).temp_max = 23 ∧
    (change_mode "Energy Saving" tr s).lights_state = "Off" ∧
    (change_mode "Energy Saving" tr s).current_mode = "Energy Saving" ∧
    (change_mode "Energy Saving" tr s).auto_mode = true ∧
    (change_mode "Energy Saving" tr s).scheduled_mode = true := by
  have hred : change_mode "Energy Saving" tr s =
      log_event "Mode changed to Energy Saving"
        (turn_off_lights tr
          { s with current_mode := "Energy Saving", auto_mode := true,
                   scheduled_mode := true, temp_min := 18, temp_max := 23 }) := rfl
  rw [hred]
  rcases tr with rs | ⟨rs, m⟩ <;> by_cases h : s.is_connected = false <;>
    simp [turn_off_lights, h, logLightResponses_eq, log_event] <;>
    exact (hinv h).1

/-- Witness for C3 at a concrete connected state whose lights are on. -/
theorem C3_energy_saving_mode_witness :
    (change_mode "Energy Saving" (LightCall.ok []) w3s).lights_state = "Off" ∧
    (change_mode "Energy Saving" (LightCall.ok []) w3s).temp_min = 18 :=
  ⟨(C3_energy_saving_mode w3s (LightCall.ok [])
      (fun hc => absurd hc (by decide))).2.2.1,
   (C3_energy_saving_mode w3s (LightCall.ok [])
      (fun hc => absurd hc (by decide))).1⟩

/-- C5: applyMacro("Night") sets current_temp directly to 19 (no ramp), and
leaves the lights off and the door closed: through the actual lights-off
and door-close commands when connected (whatever the transport outcome),
and because they were already off and closed (connection invariant) when
not connected. -/
theorem C5_night_targets (s : BASState) (ltr : LightCall) (dtr : DoorCall)
    (now : ℚ) (hinv : connInv s) :
    (applyMacro "Night" ltr dtr now s).current_temp = 19 ∧
    (applyMacro "Night" ltr dtr now s).lights_state = "Off" ∧
    (applyMacro "Night" ltr dtr now s).door_relay_state = "Off" := by
  have hred : applyMacro "Night" ltr dtr now s =
      log_event "Applied macro: Night"
        (turn_off_door_relay dtr
          { (turn_off_lights ltr s) with current_temp := 19 }) := rfl
  rw [hred]
  rcases ltr with rs | ⟨rs, m1⟩ <;> rcases dtr with _ | m2 <;>
    by_cases h : s.is_connected = false <;>
    simp [turn_off_lights, turn_off_door_relay, h, logLightResponses_eq,
          log_event] <;>
    exact ⟨(hinv h).1, (hinv h).2⟩

/-- Witness for C5 at a concrete connected state whose lights are on and
door is open. -/
theorem C5_night_targets_witness :
    (applyMacro "Night" (LightCall.ok []) DoorCall.ok 0 w5s).current_temp = 19 ∧
    (applyMacro "Night" (LightCall.ok []) DoorCall.ok 0 w5s).lights_state = "Off" ∧
    (applyMacro "Night" (LightCall.ok []) DoorCall.ok 0 w5s).door_relay_state = "Off" :=
  C5_night_targets w5s (LightCall.ok []) DoorCall.ok 0
    (fun hc => absurd hc (by decide))

/-- C9 counterexample: re-entering Energy Saving mode is not idempotent.
From a connected state already in Energy Saving mode (band and flags as the
mode sets them) whose lights were turned back on, calling change_mode
"Energy Saving" again turns the lights off, so the state differs from the
prior one beyond an appended log entry. -/
theorem C9_energy_saving_not_idempotent :
    c9s.current_mode = "Energy Saving" ∧
    (change_mode "Energy Saving" (LightCall.ok []) c9s).lights_state ≠
      c9s.lights_state := by decide

/-- C9 (amended): re-entering the current mode via setMode is idempotent up
to exactly one appended log entry for the Manual, Auto and Schedule modes,
on states whose auto/scheduled flags are consistent with that mode (as any
prior transition into it leaves them); re-entering Energy Saving instead
reapplies its effects (forces the band and commands lights off), which can
change the state. -/
theorem C9_reenter_mode_idempotent (s : BASState) (m : String)
    (tr : LightCall) (hmode : s.current_mode = m)
    (hm : m = "Manual" ∨ m = "Auto" ∨ m = "Schedule")
    (hA : s.auto_mode = decide (m = "Auto"))
    (hS : s.scheduled_mode = decide (m = "Schedule")) :
    change_mode m tr s = { s with log := s.log ++ ["Mode changed to " ++ m] } := by
  rcases hm with rfl | rfl | rfl
  · have hA2 : s.auto_mode = false := hA
    have hS2 : s.scheduled_mode = false := hS
    have hred : change_mode "Manual" tr s =
        log_event ("Mode changed to " ++ "Manual")
          { s with current_mode := "Manual", auto_mode := false,
                   scheduled_mode := false } := rfl
    rw [hred]
    cases s
    simp_all [log_event]
  · have hA2 : s.auto_mode = true := hA
    have hS2 : s.scheduled_mode = false := hS
    have hred : change_mode "Auto" tr s =
        log_event ("Mode changed to " ++ "Auto")
          { s with current_mode := "Auto", auto_mode := true,
                   scheduled_mode := false } := rfl
    rw [hred]
    cases s
    simp_all [log_event]
  · have hA2 : s.auto_mode = false := hA
    have hS2 : s.scheduled_mode = true := hS
    have hred : change_mode "Schedule" tr s =
        log_event ("Mode changed to " ++ "Schedule")
          { s with current_mode := "Schedule", auto_mode := false,
                   scheduled_mode := true } := rfl
    rw [hred]
    cases s
    simp_all [log_event]

/-- Witness for C9: re-entering Manual mode at the initial state only
appends the log entry. -/
theorem C9_reenter_mode_idempotent_witness :
    change_mode "Manual" (LightCall.ok []) initialState =
      { initialState with
          log := initialState.log ++ ["Mode changed to Manual"] } :=
  C9_reenter_mode_idempotent initialState "Manual" (LightCall.ok []) rfl
    (Or.inl rfl) (by decide) (by decide)

/-- C1 counterexample: the door timeout is not mode-independent.  In Manual
mode (auto_mode false) a tick taken with the door open for longer than 10
seconds leaves the state untouched and issues no command at all: the whole
tick body is guarded by the auto_mode flag. -/
theorem C1_manual_mode_no_auto_close :
    c1s.current_mode = "Manual" ∧ c1s.door_relay_state = "On" ∧
    ((100 : ℚ) - c1s.door_open_time > 10) ∧
    (auto_mode_monitor_tick 100 (LightCall.ok []) DoorCall.ok c1s).1 = c1s ∧
    (auto_mode_monitor_tick 100 (LightCall.ok []) DoorCall.ok c1s).2 = [] := by
  refine ⟨rfl, rfl, ?_, rfl, rfl⟩
  norm_num [c1s, initialState]

/-- C1 (amended): the auto-close fires only when the auto-regulation flag
is set (Auto or Energy Saving mode), not in every mode.  Under that flag, a
tick taken while the door is open and more than 10 seconds have elapsed
since door_open_time issues the door-close command and appends the
auto-closed log entry. -/
theorem C1_auto_close_when_auto_mode (s : BASState) (now : ℚ)
    (ltr : LightCall) (dtr : DoorCall) (ha : s.auto_mode = true)
    (hd : s.door_relay_state = "On") (ht : now - s.door_open_time > 10) :
    Act.doorCloseRelay ∈ (auto_mode_monitor_tick now ltr dtr s).2 ∧
    "Auto-closed door after timeout" ∈
      (auto_mode_monitor_tick now ltr dtr s).1.log := by
  have h1 : (auto_temp_part ltr s).1.door_relay_state = "On" := by
    rw [auto_temp_part_door_state]
    exact hd
  have h2 : now - (auto_temp_part ltr s).1.door_open_time > 10 := by
    rw [auto_temp_part_door_time]
    exact ht
  unfold auto_mode_monitor_tick
  rw [ha]
  rw [if_pos rfl, if_pos ⟨h1, h2⟩]
  constructor
  · simp
  · simp [log_event]

/-- Witness for C1 at a concrete connected auto-mode state whose door has
been open since time 0, at tick time 100. -/
theorem C1_auto_close_when_auto_mode_witness :
    Act.doorCloseRelay ∈
      (auto_mode_monitor_tick 100 (LightCall.ok []) DoorCall.ok w1s).2 ∧
    "Auto-closed door after timeout" ∈
      (auto_mode_monitor_tick 100 (LightCall.ok []) DoorCall.ok w1s).1.log :=
  C1_auto_close_when_auto_mode w1s 100 (LightCall.ok []) DoorCall.ok
    rfl rfl (by norm_num [w1s, initialState])

/-- turn_on_lights only ever appends to the log, so membership is
preserved. -/
theorem turn_on_lights_log_mem (tr : LightCall) (s : BASState) (m : String)
    (h : m ∈ s.log) : m ∈ (turn_on_lights tr s).log := by
  rcases tr with rs | ⟨rs, msg⟩ <;> by_cases hc : s.is_connected = false <;>
    simp [turn_on_lights, hc, logLightResponses_eq, log_event, h]

/-- turn_off_lights only ever appends to the log, so membership is
preserved. -/
theorem turn_off_lights_log_mem (tr : LightCall) (s : BASState) (m : String)
    (h : m ∈ s.log) : m ∈ (turn_off_lights tr s).log := by
  rcases tr with rs | ⟨rs, msg⟩ <;> by_cases hc : s.is_connected = false <;>
    simp [turn_off_lights, hc, logLightResponses_eq, log_event, h]

/-- The ClimateMonitor tick written out with its let-bindings inlined: the
branch conditions compare the unrounded perturbed temperature against the
stored band, with the auto_mode flag. -/
theorem monitor_temperature_tick_eq (dt dh : ℚ) (tr : LightCall)
    (s : BASState) :
    monitor_temperature_tick dt dh tr s =
      (if s.current_temp + dt < s.temp_min ∧ s.auto_mode then
        (turn_on_lights tr
          (log_event "Temperature below minimum. Activating heating."
            { s with current_temp := round1 (s.current_temp + dt),
                     current_humidity :=
                       round1 (max 30 (min 70 (s.current_humidity + dh))) }),
         [Act.lightsOn])
      else if s.current_temp + dt > s.temp_max ∧ s.auto_mode then
        (turn_off_lights tr
          (log_event "Temperature above maximum. Deactivating heating."
            { s with current_temp := round1 (s.current_temp + dt),
                     current_humidity :=
                       round1 (max 30 (min 70 (s.current_humidity + dh))) }),
         [Act.lightsOff])
      else
        ({ s with current_temp := round1 (s.current_temp + dt),
                  current_humidity :=
                    round1 (max 30 (min 70 (s.current_humidity + dh))) },
         [])) := rfl

/-- C6: on a ClimateMonitor tick taken with the auto-regulation flag set
(and a well-formed band, the tempMin < tempMax data-model invariant): if
the perturbed temperature is below tempMin the tick issues the lights-on
command and logs it; if it is above tempMax the tick issues the lights-off
command and logs it; within the band no actuation is issued. -/
theorem C6_climate_tick_regulation (s : BASState) (dt dh : ℚ)
    (tr : LightCall) (ha : s.auto_mode = true)
    (hband : s.temp_min < s.temp_max) :
    (s.current_temp + dt < s.temp_min →
      (monitor_temperature_tick dt dh tr s).2 = [Act.lightsOn] ∧
      "Temperature below minimum. Activating heating." ∈
        (monitor_temperature_tick dt dh tr s).1.log) ∧
    (s.current_temp + dt > s.temp_max →
      (monitor_temperature_tick dt dh tr s).2 = [Act.lightsOff] ∧
      "Temperature above maximum. Deactivating heating." ∈
        (monitor_temperature_tick dt dh tr s).1.log) ∧
    (s.temp_min ≤ s.current_temp + dt → s.current_temp + dt ≤ s.temp_max →
      (monitor_temperature_tick dt dh tr s).2 = []) := by
  rw [monitor_temperature_tick_eq]
  refine ⟨fun h1 => ?_, fun h2 => ?_, fun h3 h4 => ?_⟩
  · rw [if_pos ⟨h1, ha⟩]
    refine ⟨rfl, ?_⟩
    apply turn_on_lights_log_mem
    simp [log_event]
  · have hn1 : ¬(s.current_temp + dt < s.temp_min ∧ s.auto_mode = true) :=
      fun hco => absurd hco.1 (by linarith)
    rw [if_neg hn1, if_pos ⟨h2, ha⟩]
    refine ⟨rfl, ?_⟩
    apply turn_off_lights_log_mem
    simp [log_event]
  · have hn1 : ¬(s.current_temp + dt < s.temp_min ∧ s.auto_mode = true) :=
      fun hco => absurd hco.1 (not_lt.mpr h3)
    have hn2 : ¬(s.current_temp + dt > s.temp_max ∧ s.auto_mode = true) :=
      fun hco => absurd hco.1 (not_lt.mpr h4)
    rw [if_neg hn1, if_neg hn2]

/-- Witness for C6 at a concrete connected auto-mode state whose
temperature 15 is below the 20-25 band, with zero jitter. -/
theorem C6_climate_tick_regulation_witness :
    (monitor_temperature_tick 0 0 (LightCall.ok []) w6s).2 = [Act.lightsOn] ∧
    "Temperature below minimum. Activating heating." ∈
      (monitor_temperature_tick 0 0 (LightCall.ok []) w6s).1.log :=
  (C6_climate_tick_regulation w6s 0 0 (LightCall.ok []) rfl
      (by norm_num [w6s, initialState])).1 (by norm_num [w6s, initialState])

/-- round2 always lands on the hundredths grid. -/
theorem round2_onCentGrid (x : ℚ) : onCentGrid (round2 x) :=
  ⟨⌊x * 100 + 1 / 2⌋, rfl⟩

/-- Rounding to the hundredths grid cannot go below a grid point that the
argument already dominates. -/
theorem le_round2_of_onCentGrid {e x : ℚ} (hg : onCentGrid e) (hx : e ≤ x) :
    e ≤ round2 x := by
  obtain ⟨n, rfl⟩ := hg
  have h1 : (n : ℚ) ≤ x * 100 + 1 / 2 := by linarith
  have h2 : (n : ℚ) ≤ (⌊x * 100 + 1 / 2⌋ : ℚ) := by
    exact_mod_cast Int.le_floor.mpr h1
  unfold round2
  linarith

/-- The EnergyAccountant tick sets energy_usage to the rounded sum of the
prior value and the load-factor increment. -/
theorem monitor_energy_usage_tick_energy (now : ℚ) (s : BASState) :
    (monitor_energy_usage_tick now s).energy_usage =
      round2 (s.energy_usage +
        ((if s.lights_state = "On" then (1 : ℚ) else 2 / 10) +
          (if s.door_relay_state = "On" then (5 : ℚ) / 10 else 0)) *
          ((now - s.last_energy_update) / 3600) * (1 / 10)) := rfl

/-- One EnergyAccountant tick with non-negative elapsed time cannot
decrease energy_usage, provided the prior value lies on the hundredths
grid. -/
theorem monitor_energy_usage_tick_mono (now : ℚ) (s : BASState)
    (hg : onCentGrid s.energy_usage) (h : s.last_energy_update ≤ now) :
    s.energy_usage ≤ (monitor_energy_usage_tick now s).energy_usage := by
  rw [monitor_energy_usage_tick_energy]
  apply le_round2_of_onCentGrid hg
  have hlf : (0 : ℚ) ≤ (if s.lights_state = "On" then (1 : ℚ) else 2 / 10) := by
    split_ifs <;> norm_num
  have hdf : (0 : ℚ) ≤ (if s.door_relay_state = "On" then (5 : ℚ) / 10 else 0) := by
    split_ifs <;> norm_num
  have htd : (0 : ℚ) ≤ (now - s.last_energy_update) / 3600 :=
    div_nonneg (by linarith) (by norm_num)
  have hinc : (0 : ℚ) ≤
      ((if s.lights_state = "On" then (1 : ℚ) else 2 / 10) +
        (if s.door_relay_state = "On" then (5 : ℚ) / 10 else 0)) *
        ((now - s.last_energy_update) / 3600) * (1 / 10) := by
    apply mul_nonneg (mul_nonneg (add_nonneg hlf hdf) htd)
    norm_num
  linarith

/-- The EnergyAccountant tick leaves energy_usage on the hundredths grid. -/
theorem monitor_energy_usage_tick_grid (now : ℚ) (s : BASState) :
    onCentGrid (monitor_energy_usage_tick now s).energy_usage := by
  rw [monitor_energy_usage_tick_energy]
  exact round2_onCentGrid _

/-- Across any chronological sequence of EnergyAccountant ticks, with the
lights and door flags set arbitrarily before each tick, energy_usage never
decreases (starting from a grid value, as the initial 0 is). -/
theorem runEnergyTicks_mono (ticks : List (ℚ × String × String)) :
    ∀ s : BASState, onCentGrid s.energy_usage →
      chronoFrom s.last_energy_update ticks = true →
      s.energy_usage ≤ (runEnergyTicks ticks s).energy_usage := by
  induction ticks with
  | nil =>
      intro s hg hc
      exact le_refl _
  | cons t rest ih =>
      intro s hg hc
      unfold chronoFrom at hc
      rw [Bool.and_eq_true, decide_eq_true_eq] at hc
      obtain ⟨hle, hrest⟩ := hc
      have step : s.energy_usage ≤
          (monitor_energy_usage_tick t.1
            { s with lights_state := t.2.1,
                     door_relay_state := t.2.2 }).energy_usage :=
        monitor_energy_usage_tick_mono t.1 _ hg hle
      have tail := ih
        (monitor_energy_usage_tick t.1
          { s with lights_state := t.2.1, door_relay_state := t.2.2 })
        (monitor_energy_usage_tick_grid t.1 _)
        (by
          have hl : (monitor_energy_usage_tick t.1
              { s with lights_state := t.2.1,
                       door_relay_state := t.2.2 }).last_energy_update = t.1 := rfl
          rw [hl]
          exact hrest)
      exact le_trans step tail

/-- C7 (amended): each EnergyAccountant tick sets energy_usage to
round(prior + loadFactor * elapsedHours * 0.1, 2) — the increment is the
rounded sum, not exactly loadFactor * elapsedHours * 0.1 — and sets the
last sample time to now; and across any chronological sequence of ticks
with arbitrary light/door states, energy_usage is monotonically
non-decreasing (from any grid value of energy_usage, as every reachable
one is). -/
theorem C7_energy_accounting (s : BASState) (now : ℚ)
    (ticks : List (ℚ × String × String)) (hg : onCentGrid s.energy_usage)
    (hc : chronoFrom s.last_energy_update ticks = true) :
    (monitor_energy_usage_tick now s).energy_usage =
      round2 (s.energy_usage +
        ((if s.lights_state = "On" then (1 : ℚ) else 2 / 10) +
          (if s.door_relay_state = "On" then (5 : ℚ) / 10 else 0)) *
          ((now - s.last_energy_update) / 3600) * (1 / 10)) ∧
    (monitor_energy_usage_tick now s).last_energy_update = now ∧
    s.energy_usage ≤ (runEnergyTicks ticks s).energy_usage :=
  ⟨monitor_energy_usage_tick_energy now s, rfl,
   runEnergyTicks_mono ticks s hg hc⟩

/-- C7 counterexample: the increment is not exactly the load factor times
elapsed hours times 0.1.  From the initial state (lights off, door closed,
energy 0, last sample at 0), a tick at time 540 should add
0.2 * 0.15 * 0.1 = 0.003 kWh, but the stored value is round(0.003, 2) = 0,
so the actual increment differs from the claimed exact one. -/
theorem C7_increment_not_exact :
    (monitor_energy_usage_tick 540 initialState).energy_usage -
        initialState.energy_usage ≠
      ((if initialState.lights_state = "On" then (1 : ℚ) else 2 / 10) +
        (if initialState.door_relay_state = "On" then (5 : ℚ) / 10 else 0)) *
        ((540 - initialState.last_energy_update) / 3600) * (1 / 10) := by
  rw [monitor_energy_usage_tick_energy]
  have h1 : ¬(initialState.lights_state = "On") := by simp [initialState]
  have h2 : ¬(initialState.door_relay_state = "On") := by simp [initialState]
  rw [if_neg h1, if_neg h2]
  norm_num [initialState, round2]

/-- Witness for C7 over a concrete two-tick chronological run from the
initial state. -/
theorem C7_energy_accounting_witness :
    initialState.energy_usage ≤
      (runEnergyTicks [(10, "On", "On"), (20, "Off", "On")]
        initialState).energy_usage :=
  (C7_energy_accounting initialState 0 [(10, "On", "On"), (20, "Off", "On")]
    ⟨0, by norm_num [initialState]⟩ (by norm_num [chronoFrom, initialState])).2.2
